import Mathlib

/-!
Shallow embedding of `internal/cryptoutil/cryptoutil.go` from Delapouite/step-cli.

The Go package provides a pluggable asymmetric-signer adapter: `CreateSigner`
returns either a local-file signer (delegated to the `pemutil` collaborator) or
a subprocess-backed `kmsSigner` that shells out to the `step-kms-plugin`
executable.  External collaborators (pemutil parsing, plugin path lookup, the
subprocess itself, the rand reader) are modelled as oracle parameters; the
control flow, argument building, string formatting and base64 decoding are
translated from the source.
-/

namespace StepCli

/-- Key types distinguished by type assertions/switches in the Go source
(`*ecdsa.PublicKey`, `*rsa.PublicKey`, `ed25519.PublicKey`, anything else). -/
inductive KeyType
  | ecdsa
  | rsa
  | ed25519
  | otherKey
deriving DecidableEq, Repr

/-- A `crypto.PublicKey`: its Go dynamic type together with opaque key
material (the bytes only matter for identity comparisons). -/
structure PublicKey where
  type : KeyType
  data : List Nat
deriving DecidableEq, Repr

/-- A `crypto.Hash` value as observed by `opts.HashFunc()` in `kmsSigner.Sign`:
the three hashes the switch recognises, or any other hash carrying its Go
`String()` name (e.g. "SHA-1"). -/
inductive Hash
  | sha256
  | sha384
  | sha512
  | otherHash (goName : String)
deriving DecidableEq, Repr

/-- `crypto.Hash.String()` for the values of `Hash`. -/
def Hash.string : Hash → String
  | .sha256 => "SHA-256"
  | .sha384 => "SHA-384"
  | .sha512 => "SHA-512"
  | .otherHash goName => goName

/-- The information `kmsSigner.Sign` extracts from its `crypto.SignerOpts`
argument: whether the dynamic type is `*rsa.PSSOptions`, and the requested
hash function. -/
structure SignerOpts where
  isPSS : Bool
  hash : Hash
deriving DecidableEq, Repr

/-- The `kmsSigner` struct: embedded `crypto.PublicKey` (cached at
construction), resolved plugin path `name`, provider `kms`, key `key`. -/
structure KmsSigner where
  publicKey : PublicKey
  name : String
  kms : String
  key : String
deriving DecidableEq, Repr

/-- A `crypto.Signer` as this package sees it: either the `*kmsSigner`
variant, or any other signer (e.g. key material returned by `pemutil.Read`),
of which only the public key is observable here. -/
inductive Signer
  | file (pub : PublicKey)
  | kms (s : KmsSigner)
deriving DecidableEq, Repr

/-- `signer.Public()` for both variants. -/
def Signer.public : Signer → PublicKey
  | .file pub => pub
  | .kms s => s.publicKey

/-- `IsKMSSigner`: the type assertion `signer.(*kmsSigner)`. -/
def IsKMSSigner : Signer → Bool
  | .kms _ => true
  | .file _ => false

/-- The `switch pub.(type)` at the end of `IsX509Signer`: true for ECDSA, RSA
and Ed25519 public keys, false otherwise. -/
def x509KeySwitch (pub : PublicKey) : Bool :=
  match pub.type with
  | .ecdsa => true
  | .rsa => true
  | .ed25519 => true
  | .otherKey => false

/-- `strings.ToLower` restricted to ASCII case mapping (the provider scheme
comparison in the source only ever involves ASCII characters). -/
def strToLower (s : String) : String :=
  String.mk (s.data.map Char.toLower)

/-- `strings.HasPrefix`. -/
def strStartsWith (s pre : String) : Bool :=
  pre.data.isPrefixOf s.data

/-- `IsX509Signer`: for a `*kmsSigner` whose lower-cased `kms` field starts
with "sshagentkms:", true iff the public key is Ed25519; otherwise the key
type switch decides. -/
def IsX509Signer (signer : Signer) : Bool :=
  let pub := signer.public
  match signer with
  | .kms ks =>
    if strStartsWith (strToLower ks.kms) "sshagentkms:" then
      pub.type == .ed25519
    else
      x509KeySwitch pub
  | .file _ => x509KeySwitch pub

/-- The claim's guard, stated in the spec's terms: a subprocess signer whose
provider id, compared case-insensitively, begins with the ssh-agent provider
scheme prefix. -/
def isSshAgentProvider : Signer → Bool
  | .kms ks => strStartsWith (strToLower ks.kms) "sshagentkms:"
  | .file _ => false

/-- Escape one character the way Go's `%q` verb does for the characters that
can occur here (quote, backslash, and the common control characters; Go
additionally escapes other non-printables, which never occur in this
program's command vocabulary). -/
def goEscapeChar (c : Char) : String :=
  if c = '"' then "\\\""
  else if c = '\\' then "\\\\"
  else if c = '\n' then "\\n"
  else if c = '\t' then "\\t"
  else if c = '\r' then "\\r"
  else String.mk [c]

/-- Escape a string character-by-character as `%q` does. -/
def goEscape (s : String) : String :=
  String.join (s.data.map goEscapeChar)

/-- Model of the `%q` fmt verb applied to a string: surrounding double quotes
with the inner characters escaped. -/
def goQuote (s : String) : String :=
  "\"" ++ goEscape s ++ "\""

/-- `(*exec.Cmd).String()`: the executable path followed by each argument,
separated by single spaces. -/
def cmdString (name : String) (args : List String) : String :=
  name ++ String.join (args.map (fun a => " " ++ a))

/-- The error value returned by `cmd.Output()`: either an `*exec.ExitError`
carrying captured stderr, or any other (launch/transport) error carrying its
message. -/
inductive ProcErr
  | exitErr (stderr : String)
  | launchErr (msg : String)
deriving DecidableEq, Repr

/-- Outcome of running the subprocess: captured stdout on success, or a
`ProcErr`. -/
inductive ProcResult
  | ok (stdout : String)
  | err (e : ProcErr)
deriving DecidableEq, Repr

/-- `exitError(cmd, err)`: formats `command %q failed with:\n%s` for an
`*exec.ExitError` (with its stderr), and `command %q failed with: %v` for any
other error. -/
def exitError (cmdStr : String) : ProcErr → String
  | .exitErr stderr => "command " ++ goQuote cmdStr ++ " failed with:\n" ++ stderr
  | .launchErr msg => "command " ++ goQuote cmdStr ++ " failed with: " ++ msg

/-- The argument-building prefix of `kmsSigner.Sign` (lines building `args`
before the subprocess is spawned): returns the final argument list, or the
`unsupported hash function %q` error for an RSA key with an unrecognised
hash. -/
def KmsSigner.buildSignArgs (s : KmsSigner) (opts : SignerOpts) : Except String (List String) :=
  let args := ["sign", "--format", "base64"]
  let args := if s.kms ≠ "" then args ++ ["--kms", s.kms] else args
  if s.publicKey.type = .rsa then
    let args := if opts.isPSS then args ++ ["--pss"] else args
    match opts.hash with
    | .sha256 => .ok (args ++ ["--alg", "SHA256"] ++ [s.key])
    | .sha384 => .ok (args ++ ["--alg", "SHA384"] ++ [s.key])
    | .sha512 => .ok (args ++ ["--alg", "SHA512"] ++ [s.key])
    | .otherHash goName =>
        .error ("unsupported hash function " ++ goQuote (Hash.string (.otherHash goName)))
  else
    .ok (args ++ [s.key])

/-- The spec's hash-name table: SHA-256→"SHA256", SHA-384→"SHA384",
SHA-512→"SHA512", anything else unsupported. -/
def hashAlgName : Hash → Option String
  | .sha256 => some "SHA256"
  | .sha384 => some "SHA384"
  | .sha512 => some "SHA512"
  | .otherHash _ => none

/-- The standard base64 alphabet used by Go's `base64.StdEncoding`. -/
def b64Alphabet : List Char :=
  "ABCDEFGHIJKLMNOPQRSTUVWXYZabcdefghijklmnopqrstuvwxyz0123456789+/".data

/-- Character for a 6-bit value. -/
def b64Char (n : Nat) : Char :=
  b64Alphabet.getD n 'A'

/-- Index of a character in the standard alphabet; `none` for characters
outside it (including the padding character). -/
def b64Index (c : Char) : Option Nat :=
  b64Alphabet.findIdx? (fun x => x = c)

/-- `base64.StdEncoding.EncodeToString` over bytes, three input bytes per
four output characters, padded with `=`. -/
def base64EncodeChars : List Nat → List Char
  | [] => []
  | [a] => [b64Char (a / 4), b64Char (a % 4 * 16), '=', '=']
  | [a, b] => [b64Char (a / 4), b64Char (a % 4 * 16 + b / 16), b64Char (b % 16 * 4), '=']
  | a :: b :: c :: rest =>
      b64Char (a / 4) :: b64Char (a % 4 * 16 + b / 16) ::
      b64Char (b % 16 * 4 + c / 64) :: b64Char (c % 64) :: base64EncodeChars rest

/-- String form of the standard base64 encoding. -/
def base64Encode (bs : List Nat) : String :=
  String.mk (base64EncodeChars bs)

/-- `base64.StdEncoding` decoding over characters (newlines already removed):
four characters per quantum; padding `=` only at the end of the final quantum
(`xx==` or `xxx=`); any character outside the alphabet, a partial quantum, or
data after padding is a corrupt-input error (`none`).  Like Go's non-strict
decoder, unused trailing bits of a padded quantum are ignored. -/
def base64DecodeChars : List Char → Option (List Nat)
  | [] => some []
  | a :: b :: c :: d :: rest =>
    match b64Index a, b64Index b with
    | some va, some vb =>
      if c = '=' then
        if d = '=' then
          if rest = [] then some [va * 4 + vb / 16] else none
        else none
      else
        match b64Index c with
        | some vc =>
          if d = '=' then
            if rest = [] then some [va * 4 + vb / 16, vb % 16 * 16 + vc / 4] else none
          else
            match b64Index d with
            | some vd =>
              match base64DecodeChars rest with
              | some bs =>
                  some ((va * 4 + vb / 16) :: (vb % 16 * 16 + vc / 4) :: (vc % 4 * 64 + vd) :: bs)
              | none => none
            | none => none
        | none => none
    | _, _ => none
  | _ => none

/-- `base64.StdEncoding.DecodeString`: newline characters are ignored, then
the characters are decoded quantum by quantum. -/
def base64Decode (s : String) : Option (List Nat) :=
  base64DecodeChars (s.data.filter (fun c => !(c == '\n') && !(c == '\r')))

/-- Everything observable about one `kmsSigner.Sign` call: the returned
signature or error, the subprocesses spawned (argument list and the bytes
written to stdin), and the signer state after the call (the method never
writes through its receiver, so this always equals the state before). -/
structure SignOutcome where
  result : Except String (List Nat)
  spawned : List (List String × List Nat)
  signerAfter : KmsSigner
deriving Repr

/-- `kmsSigner.Sign(rand, digest, opts)`.  The subprocess is the oracle
`proc`, mapping the argument list and the stdin bytes (the digest, written by
the helper goroutine) to its outcome.  The `rand` reader, of arbitrary type
`R`, is never read by the Go body.  On success the captured stdout is
base64-decoded. -/
def KmsSigner.sign {R : Type} (s : KmsSigner) ( rand : R) (digest : List Nat)
    (opts : SignerOpts) (proc : List String → List Nat → ProcResult) : SignOutcome :=
  match s.buildSignArgs opts with
  | .error e => { result := .error e, spawned := [], signerAfter := s }
  | .ok args =>
    match proc args digest with
    | .ok out =>
      { result :=
          match base64Decode out with
          | some bs => .ok bs
          | none => .error "illegal base64 data"
        spawned := [(args, digest)]
        signerAfter := s }
    | .err e =>
      { result := .error (exitError (cmdString s.name args) e)
        spawned := [(args, digest)]
        signerAfter := s }

/-- What `pemutil.Read` can hand back, as far as `CreateSigner` can observe:
either something satisfying `crypto.Signer`, or anything else (a certificate,
a public key, ...). -/
inductive PemObject
  | signerObj (s : Signer)
  | nonSigner
deriving DecidableEq, Repr

/-- Everything observable about one `CreateSigner`/`newKMSSigner` call: the
returned signer or error, the logical names passed to `plugin.LookPath`, and
the subprocesses spawned (executable and argument list). -/
structure CreateOutcome where
  result : Except String Signer
  lookPathCalls : List String
  spawned : List (String × List String)
deriving Repr

/-- The argument list `newKMSSigner` builds for the public-key fetch:
`["key"]`, then `["--kms", kms]` if `kms` is non-empty, then the key. -/
def keyFetchArgs (kms key : String) : List String :=
  let args := ["key"]
  let args := if kms ≠ "" then args ++ ["--kms", kms] else args
  args ++ [key]

/-- `newKMSSigner(kms, key)`: resolve the plugin executable via the
`lookPath` oracle, run `<plugin> key [--kms <kms>] <key>` via the `proc`
oracle, parse its stdout as a public key via the `parsePub` oracle
(`pemutil.Parse`), and construct the `kmsSigner`. -/
def newKMSSigner (lookPath : String → Except String String)
    (proc : String → List String → ProcResult)
    (parsePub : String → Except String PublicKey)
    (kms key : String) : CreateOutcome :=
  match lookPath "kms" with
  | .error e => { result := .error e, lookPathCalls := ["kms"], spawned := [] }
  | .ok name =>
    let args := keyFetchArgs kms key
    match proc name args with
    | .err e =>
      { result := .error (exitError (cmdString name args) e)
        lookPathCalls := ["kms"]
        spawned := [(name, args)] }
    | .ok out =>
      match parsePub out with
      | .error e =>
        { result := .error e, lookPathCalls := ["kms"], spawned := [(name, args)] }
      | .ok pub =>
        { result := .ok (.kms { publicKey := pub, name := name, kms := kms, key := key })
          lookPathCalls := ["kms"]
          spawned := [(name, args)] }

/-- `CreateSigner(kms, name, opts...)`: with an empty `kms`, delegate to the
`read` oracle (`pemutil.Read`) with the name and the parse options `A`; a
parsed object that is not a `crypto.Signer` is the
`file %s does not contain a valid private key` error.  With a non-empty
`kms`, delegate to `newKMSSigner`. -/
def CreateSigner {A : Type} (read : String → List A → Except String PemObject)
    (lookPath : String → Except String String)
    (proc : String → List String → ProcResult)
    (parsePub : String → Except String PublicKey)
    (kms nm : String) (opts : List A) : CreateOutcome :=
  if kms = "" then
    match read nm opts with
    | .error e => { result := .error e, lookPathCalls := [], spawned := [] }
    | .ok (.signerObj s) => { result := .ok s, lookPathCalls := [], spawned := [] }
    | .ok .nonSigner =>
      { result := .error ("file " ++ nm ++ " does not contain a valid private key")
        lookPathCalls := []
        spawned := [] }
  else
    newKMSSigner lookPath proc parsePub kms nm

/-! ## Helper lemmas -/

theorem b64Index_b64Char : ∀ n, n < 64 → b64Index (b64Char n) = some n := by decide

theorem b64Char_ne_pad : ∀ n, n < 64 → ¬(b64Char n = '=') := by decide

theorem b64Char_keep : ∀ n, n < 64 → (!(b64Char n == '\n') && !(b64Char n == '\r')) = true := by
  decide

theorem pad_keep : (!(('=' : Char) == '\n') && !(('=' : Char) == '\r')) = true := by decide

/-- The encoder only emits alphabet characters and padding, so the decoder's
newline filter leaves its output unchanged. -/
theorem encode_filter_id : ∀ (bs : List Nat), (∀ x ∈ bs, x < 256) →
    (base64EncodeChars bs).filter (fun c => !(c == '\n') && !(c == '\r')) = base64EncodeChars bs
  | [], _ => rfl
  | [a], h => by
      have ha : a < 256 := h a (by simp)
      have h1 := b64Char_keep (a / 4) (by omega)
      have h2 := b64Char_keep (a % 4 * 16) (by omega)
      simp only [base64EncodeChars, List.filter, h1, h2, pad_keep]
  | [a, b], h => by
      have ha : a < 256 := h a (by simp)
      have hb : b < 256 := h b (by simp)
      have h1 := b64Char_keep (a / 4) (by omega)
      have h2 := b64Char_keep (a % 4 * 16 + b / 16) (by omega)
      have h3 := b64Char_keep (b % 16 * 4) (by omega)
      simp only [base64EncodeChars, List.filter, h1, h2, h3, pad_keep]
  | a :: b :: c :: rest, h => by
      have ha : a < 256 := h a (by simp)
      have hb : b < 256 := h b (by simp)
      have hc : c < 256 := h c (by simp)
      have h1 := b64Char_keep (a / 4) (by omega)
      have h2 := b64Char_keep (a % 4 * 16 + b / 16) (by omega)
      have h3 := b64Char_keep (b % 16 * 4 + c / 64) (by omega)
      have h4 := b64Char_keep (c % 64) (by omega)
      have ih := encode_filter_id rest (fun x hx => h x (by simp [hx]))
      simp only [base64EncodeChars, List.filter, h1, h2, h3, h4]
      exact congrArg _ (congrArg _ (congrArg _ (congrArg _ ih)))

/-- Decoding inverts encoding, quantum by quantum. -/
theorem decode_encode : ∀ (bs : List Nat), (∀ x ∈ bs, x < 256) →
    base64DecodeChars (base64EncodeChars bs) = some bs
  | [], _ => rfl
  | [a], h => by
      have ha : a < 256 := h a (by simp)
      have i1 := b64Index_b64Char (a / 4) (by omega)
      have i2 := b64Index_b64Char (a % 4 * 16) (by omega)
      simp [base64EncodeChars, base64DecodeChars, i1, i2]
      omega
  | [a, b], h => by
      have ha : a < 256 := h a (by simp)
      have hb : b < 256 := h b (by simp)
      have i1 := b64Index_b64Char (a / 4) (by omega)
      have i2 := b64Index_b64Char (a % 4 * 16 + b / 16) (by omega)
      have i3 := b64Index_b64Char (b % 16 * 4) (by omega)
      have n3 := b64Char_ne_pad (b % 16 * 4) (by omega)
      simp [base64EncodeChars, base64DecodeChars, i1, i2, i3, n3]
      omega
  | a :: b :: c :: rest, h => by
      have ha : a < 256 := h a (by simp)
      have hb : b < 256 := h b (by simp)
      have hc : c < 256 := h c (by simp)
      have i1 := b64Index_b64Char (a / 4) (by omega)
      have i2 := b64Index_b64Char (a % 4 * 16 + b / 16) (by omega)
      have i3 := b64Index_b64Char (b % 16 * 4 + c / 64) (by omega)
      have i4 := b64Index_b64Char (c % 64) (by omega)
      have n3 := b64Char_ne_pad (b % 16 * 4 + c / 64) (by omega)
      have n4 := b64Char_ne_pad (c % 64) (by omega)
      have ih := decode_encode rest (fun x hx => h x (by simp [hx]))
      simp [base64EncodeChars, base64DecodeChars, i1, i2, i3, i4, n3, n4, ih]
      omega

/-- `DecodeString` inverts `EncodeToString` on byte lists. -/
theorem base64_decode_encode (bs : List Nat) (h : ∀ x ∈ bs, x < 256) :
    base64Decode (base64Encode bs) = some bs := by
  show base64DecodeChars
      ((base64EncodeChars bs).filter (fun c => !(c == '\n') && !(c == '\r'))) = some bs
  rw [encode_filter_id bs h]
  exact decode_encode bs h

/-- RSA key, supported hash: the argument list in closed form. -/
theorem buildSignArgs_rsa (s : KmsSigner) (opts : SignerOpts) (H : String)
    (hrsa : s.publicKey.type = .rsa) (hH : hashAlgName opts.hash = some H) :
    s.buildSignArgs opts =
      .ok ((["sign", "--format", "base64"] ++
            (if s.kms ≠ "" then ["--kms", s.kms] else []) ++
            (if opts.isPSS then ["--pss"] else []) ++ ["--alg", H]) ++ [s.key]) := by
  cases hh : opts.hash <;> rw [hh] at hH <;> simp only [hashAlgName, Option.some.injEq,
    reduceCtorEq] at hH <;> try subst hH
  all_goals
    simp only [KmsSigner.buildSignArgs, hrsa, hh, if_pos rfl]
  all_goals
    by_cases hk : s.kms = "" <;> by_cases hp : opts.isPSS = true <;>
      simp [hk, hp, List.append_assoc]

/-- RSA key, unsupported hash: the error in closed form. -/
theorem buildSignArgs_rsa_bad (s : KmsSigner) (opts : SignerOpts)
    (hrsa : s.publicKey.type = .rsa) (hH : hashAlgName opts.hash = none) :
    s.buildSignArgs opts =
      .error ("unsupported hash function " ++ goQuote opts.hash.string) := by
  cases hh : opts.hash <;> rw [hh] at hH <;> simp only [hashAlgName, reduceCtorEq] at hH
  simp [KmsSigner.buildSignArgs, hrsa, hh, Hash.string]

/-- Non-RSA key: the argument list in closed form. -/
theorem buildSignArgs_nonrsa (s : KmsSigner) (opts : SignerOpts)
    (h : ¬ s.publicKey.type = .rsa) :
    s.buildSignArgs opts =
      .ok ((["sign", "--format", "base64"] ++
            (if s.kms ≠ "" then ["--kms", s.kms] else [])) ++ [s.key]) := by
  by_cases hk : s.kms = "" <;> simp [KmsSigner.buildSignArgs, h, hk]

/-! ## Claim theorems -/

/-- C1: for a subprocess signer with an RSA cached public key and a requested
hash among SHA-256/SHA-384/SHA-512, the argument list built by `Sign` is
exactly `["sign","--format","base64"]`, then `["--kms", kms]` iff the provider
id is non-empty, then `["--pss"]` iff the options request PSS padding, then
`["--alg", H]` with the exact hash name, ending with the key id; for a
non-RSA cached public key the list is the same but without the `--pss` and
`--alg` elements, regardless of the options. -/
theorem sign_argument_list_shape (s : KmsSigner) (opts : SignerOpts) :
    (∀ H, s.publicKey.type = .rsa → hashAlgName opts.hash = some H →
      s.buildSignArgs opts =
        .ok ((["sign", "--format", "base64"] ++
              (if s.kms ≠ "" then ["--kms", s.kms] else []) ++
              (if opts.isPSS then ["--pss"] else []) ++ ["--alg", H]) ++ [s.key])) ∧
    (s.publicKey.type ≠ .rsa →
      s.buildSignArgs opts =
        .ok ((["sign", "--format", "base64"] ++
              (if s.kms ≠ "" then ["--kms", s.kms] else [])) ++ [s.key])) :=
  ⟨fun H hrsa hH => buildSignArgs_rsa s opts H hrsa hH,
   fun h => buildSignArgs_nonrsa s opts h⟩

/-- Witness for C1 at a concrete RSA / PSS / SHA-256 request. -/
theorem sign_argument_list_shape_witness :
    KmsSigner.buildSignArgs ⟨⟨.rsa, []⟩, "/plugin", "softkms:", "mykey"⟩ ⟨true, .sha256⟩ =
      .ok ((["sign", "--format", "base64"] ++
            (if ("softkms:" : String) ≠ "" then ["--kms", "softkms:"] else []) ++
            (if (true : Bool) then ["--pss"] else []) ++ ["--alg", "SHA256"]) ++ ["mykey"]) :=
  (sign_argument_list_shape ⟨⟨.rsa, []⟩, "/plugin", "softkms:", "mykey"⟩ ⟨true, .sha256⟩).1
    "SHA256" rfl rfl

/-- C2: for an RSA cached public key and a requested hash outside
SHA-256/SHA-384/SHA-512, `Sign` returns the `unsupported hash function %q`
error naming the offending hash, and spawns no subprocess. -/
theorem sign_unsupported_hash_fails {R : Type} (s : KmsSigner) (r : R) (digest : List Nat)
    (opts : SignerOpts) (proc : List String → List Nat → ProcResult)
    (hrsa : s.publicKey.type = .rsa) (hH : hashAlgName opts.hash = none) :
    (s.sign r digest opts proc).result =
      .error ("unsupported hash function " ++ goQuote opts.hash.string) ∧
    (s.sign r digest opts proc).spawned = [] := by
  have hb := buildSignArgs_rsa_bad s opts hrsa hH
  constructor <;> simp [KmsSigner.sign, hb]

/-- Witness for C2 at a concrete RSA signer asked to use SHA-1. -/
theorem sign_unsupported_hash_fails_witness :
    (KmsSigner.sign ⟨⟨.rsa, []⟩, "/plugin", "", "mykey"⟩ (0 : Nat) [1, 2, 3]
        ⟨false, .otherHash "SHA-1"⟩ (fun _ _ => .ok "")).result =
      .error ("unsupported hash function " ++ goQuote (Hash.otherHash "SHA-1").string) ∧
    (KmsSigner.sign ⟨⟨.rsa, []⟩, "/plugin", "", "mykey"⟩ (0 : Nat) [1, 2, 3]
        ⟨false, .otherHash "SHA-1"⟩ (fun _ _ => .ok "")).spawned = [] :=
  sign_unsupported_hash_fails _ _ _ _ _ rfl rfl

/-- C3 counterexample: at a concrete RSA+PSS+SHA-256 request the built list
places `--pss` at index 5 and `--alg` at index 6, i.e. `--pss` comes BEFORE
`--alg`, contradicting the claim that `--pss` appears after the `--alg`
flag. -/
theorem pss_ordering_counterexample :
    KmsSigner.buildSignArgs ⟨⟨.rsa, []⟩, "/plugin", "softkms:", "mykey"⟩ ⟨true, .sha256⟩ =
      .ok ["sign", "--format", "base64", "--kms", "softkms:", "--pss", "--alg", "SHA256",
           "mykey"] ∧
    ¬ ((["sign", "--format", "base64", "--kms", "softkms:", "--pss", "--alg", "SHA256",
         "mykey"].indexOf "--alg") <
       (["sign", "--format", "base64", "--kms", "softkms:", "--pss", "--alg", "SHA256",
         "mykey"].indexOf "--pss")) :=
  ⟨rfl, by decide⟩

/-- C3 amended: for every RSA-keyed request with PSS padding and a supported
hash, `--pss` appears after the `--kms` flags and immediately BEFORE `--alg`,
with the key identifier last. -/
theorem pss_position_amended (s : KmsSigner) (opts : SignerOpts) (H : String)
    (hrsa : s.publicKey.type = .rsa) (hpss : opts.isPSS = true)
    (hH : hashAlgName opts.hash = some H) :
    s.buildSignArgs opts =
      .ok ((["sign", "--format", "base64"] ++
            (if s.kms ≠ "" then ["--kms", s.kms] else [])) ++
           ("--pss" :: "--alg" :: H :: [s.key])) := by
  rw [buildSignArgs_rsa s opts H hrsa hH, hpss]
  simp

/-- Witness for the amended C3 at a concrete request. -/
theorem pss_position_amended_witness :
    KmsSigner.buildSignArgs ⟨⟨.rsa, []⟩, "/plugin", "softkms:", "mykey"⟩ ⟨true, .sha384⟩ =
      .ok ((["sign", "--format", "base64"] ++
            (if ("softkms:" : String) ≠ "" then ["--kms", "softkms:"] else [])) ++
           ("--pss" :: "--alg" :: "SHA384" :: ["mykey"])) :=
  pss_position_amended ⟨⟨.rsa, []⟩, "/plugin", "softkms:", "mykey"⟩ ⟨true, .sha384⟩
    "SHA384" rfl rfl rfl

/-- C4: when the subprocess runs and exits non-zero, `Sign` returns an error
(and no signature) whose message carries the fully reconstructed command line
(`%q`-quoted) and the captured stderr text verbatim; the command line itself
appears verbatim whenever it contains no characters `%q` escapes. -/
theorem sign_nonzero_exit_error {R : Type} (s : KmsSigner) (r : R) (digest : List Nat)
    (opts : SignerOpts) (proc : List String → List Nat → ProcResult)
    (args : List String) (stderr : String)
    (hargs : s.buildSignArgs opts = .ok args)
    (hproc : proc args digest = .err (.exitErr stderr)) :
    ∃ m, (s.sign r digest opts proc).result = .error m ∧
      m = "command " ++ goQuote (cmdString s.name args) ++ " failed with:\n" ++ stderr ∧
      (∃ u, m = u ++ stderr) ∧
      (goEscape (cmdString s.name args) = cmdString s.name args →
        ∃ u v, m = u ++ cmdString s.name args ++ v) := by
  refine ⟨_, ?_, rfl, ?_, ?_⟩
  · simp [KmsSigner.sign, hargs, hproc, exitError]
  · exact ⟨"command " ++ goQuote (cmdString s.name args) ++ " failed with:\n", rfl⟩
  · intro hplain
    refine ⟨"command " ++ "\"", "\"" ++ " failed with:\n" ++ stderr, ?_⟩
    rw [goQuote, hplain]
    simp only [String.append_assoc]

/-- Witness for C4 at a concrete Ed25519 signer whose plugin exits non-zero
with stderr "boom". -/
theorem sign_nonzero_exit_error_witness :
    ∃ m, (KmsSigner.sign ⟨⟨.ed25519, []⟩, "/plugin", "", "mykey"⟩ (0 : Nat) [7]
        ⟨false, .sha256⟩ (fun _ _ => .err (.exitErr "boom"))).result = .error m ∧
      m = "command " ++
            goQuote (cmdString "/plugin" ["sign", "--format", "base64", "mykey"]) ++
            " failed with:\n" ++ "boom" ∧
      (∃ u, m = u ++ "boom") ∧
      (goEscape (cmdString "/plugin" ["sign", "--format", "base64", "mykey"]) =
          cmdString "/plugin" ["sign", "--format", "base64", "mykey"] →
        ∃ u v, m = u ++ cmdString "/plugin" ["sign", "--format", "base64", "mykey"] ++ v) :=
  sign_nonzero_exit_error ⟨⟨.ed25519, []⟩, "/plugin", "", "mykey"⟩ (0 : Nat) [7]
    ⟨false, .sha256⟩ (fun _ _ => .err (.exitErr "boom"))
    ["sign", "--format", "base64", "mykey"] "boom" rfl rfl

/-- C5: `IsX509Signer` returns, for a subprocess signer whose provider id
case-insensitively begins with the ssh-agent scheme prefix, true iff the
public key is Ed25519; for every other signer, true iff the public key type
is ECDSA, RSA or Ed25519, and false for any other key type. -/
theorem isX509Signer_characterisation (signer : Signer) :
    (isSshAgentProvider signer = true →
      (IsX509Signer signer = true ↔ signer.public.type = .ed25519)) ∧
    (isSshAgentProvider signer = false →
      (IsX509Signer signer = true ↔
        (signer.public.type = .ecdsa ∨ signer.public.type = .rsa ∨
         signer.public.type = .ed25519))) := by
  constructor
  · intro h
    cases signer with
    | file pub => simp [isSshAgentProvider] at h
    | kms ks =>
      simp only [isSshAgentProvider] at h
      simp only [IsX509Signer, Signer.public, h, if_pos]
      cases hk : ks.publicKey.type <;> simp [hk]
  · intro h
    cases signer with
    | file pub =>
      simp only [IsX509Signer, Signer.public, x509KeySwitch]
      cases hk : pub.type <;> simp [hk]
    | kms ks =>
      simp only [isSshAgentProvider] at h
      simp only [IsX509Signer, Signer.public, h, x509KeySwitch, Bool.false_eq_true,
        if_false]
      cases hk : ks.publicKey.type <;> simp [hk]

/-- Witness for C5: an ssh-agent-provider Ed25519 subprocess signer is
X.509-capable. -/
theorem isX509Signer_characterisation_witness :
    IsX509Signer (.kms ⟨⟨.ed25519, []⟩, "/plugin", "sshagentkms:default", "mykey"⟩) = true :=
  ((isX509Signer_characterisation
      (.kms ⟨⟨.ed25519, []⟩, "/plugin", "sshagentkms:default", "mykey"⟩)).1
    (by decide)).mpr rfl

/-- C6: with an empty provider indicator, `CreateSigner` delegates to the
key-parsing collaborator on the key identifier and the supplied options;
a parse error propagates, parsed signing material is returned as the signer,
and parsed material without a private-signing capability yields the
`does not contain a valid private key` error and no signer. -/
theorem createSigner_empty_delegates {A : Type}
    (read : String → List A → Except String PemObject)
    (lookPath : String → Except String String)
    (proc : String → List String → ProcResult)
    (parsePub : String → Except String PublicKey)
    (nm : String) (opts : List A) :
    (∀ e, read nm opts = .error e →
      (CreateSigner read lookPath proc parsePub "" nm opts).result = .error e) ∧
    (∀ sg, read nm opts = .ok (.signerObj sg) →
      (CreateSigner read lookPath proc parsePub "" nm opts).result = .ok sg) ∧
    (read nm opts = .ok .nonSigner →
      (CreateSigner read lookPath proc parsePub "" nm opts).result =
        .error ("file " ++ nm ++ " does not contain a valid private key")) := by
  refine ⟨fun e he => ?_, fun sg hs => ?_, fun hn => ?_⟩
  · simp [CreateSigner, he]
  · simp [CreateSigner, hs]
  · simp [CreateSigner, hn]

/-- Witness for C6: a collaborator returning a non-signer object (e.g. a
certificate) produces the `not a valid private key` error. -/
theorem createSigner_empty_delegates_witness :
    (CreateSigner (fun (_ : String) (_ : List Unit) => .ok .nonSigner)
        (fun _ => .error "no plugin") (fun _ _ => .ok "") (fun _ => .error "no key")
        "" "testfile" []).result =
      .error ("file " ++ "testfile" ++ " does not contain a valid private key") :=
  (createSigner_empty_delegates (fun _ _ => .ok .nonSigner) (fun _ => .error "no plugin")
      (fun _ _ => .ok "") (fun _ => .error "no key") "testfile" []).2.2 rfl

/-- C7: with an empty provider indicator, `CreateSigner` never invokes the
plugin-executable resolver and never spawns a subprocess, whatever the
key-parsing collaborator returns. -/
theorem createSigner_empty_no_subprocess {A : Type}
    (read : String → List A → Except String PemObject)
    (lookPath : String → Except String String)
    (proc : String → List String → ProcResult)
    (parsePub : String → Except String PublicKey)
    (nm : String) (opts : List A) :
    (CreateSigner read lookPath proc parsePub "" nm opts).lookPathCalls = [] ∧
    (CreateSigner read lookPath proc parsePub "" nm opts).spawned = [] := by
  cases h : read nm opts with
  | error e => simp [CreateSigner, h]
  | ok po => cases po <;> simp [CreateSigner, h]

/-- C8: against a plugin that echoes the base64 encoding of its stdin and
exits zero, `Sign` on a non-RSA-keyed signer returns exactly the digest; and
whenever the subprocess exits zero with stdout that is not well-formed
base64, `Sign` returns a decode error and no signature. -/
theorem sign_base64_roundtrip {R : Type} (s : KmsSigner) (r : R) (digest : List Nat)
    (opts : SignerOpts) :
    ((∀ x ∈ digest, x < 256) → s.publicKey.type ≠ .rsa →
      (s.sign r digest opts (fun _ stdin => .ok (base64Encode stdin))).result =
        .ok digest) ∧
    (∀ (proc : List String → List Nat → ProcResult) (args : List String) (out : String),
      s.buildSignArgs opts = .ok args → proc args digest = .ok out →
      base64Decode out = none →
      (s.sign r digest opts proc).result = .error "illegal base64 data") := by
  constructor
  · intro hbytes hnonrsa
    have hb := buildSignArgs_nonrsa s opts hnonrsa
    simp [KmsSigner.sign, hb, base64_decode_encode digest hbytes]
  · intro proc args out hargs hproc hdec
    simp [KmsSigner.sign, hargs, hproc, hdec]

/-- Witness for C8: the echo plugin round-trips a concrete three-byte digest
through an Ed25519-keyed signer. -/
theorem sign_base64_roundtrip_witness :
    (KmsSigner.sign ⟨⟨.ed25519, []⟩, "/plugin", "softkms:", "mykey"⟩ (0 : Nat)
        [202, 254, 186] ⟨false, .sha256⟩
        (fun _ stdin => .ok (base64Encode stdin))).result = .ok [202, 254, 186] :=
  (sign_base64_roundtrip ⟨⟨.ed25519, []⟩, "/plugin", "softkms:", "mykey"⟩ (0 : Nat)
      [202, 254, 186] ⟨false, .sha256⟩).1 (by decide) (by decide)

/-- C9: a subprocess signer is immutable after construction: `Public` returns
exactly the cached public key, `Sign` leaves the signer state unchanged, the
constructor stores the resolved path, provider, key id and parsed public key
without alteration, and two `Sign` calls with equal digests and equal options
produce identical spawned argument lists. -/
theorem kms_signer_immutable :
    (∀ s : KmsSigner, Signer.public (.kms s) = s.publicKey) ∧
    (∀ (R : Type) (r : R) (s : KmsSigner) (digest : List Nat) (opts : SignerOpts)
       (proc : List String → List Nat → ProcResult),
       (s.sign r digest opts proc).signerAfter = s) ∧
    (∀ (lookPath : String → Except String String)
       (proc : String → List String → ProcResult)
       (parsePub : String → Except String PublicKey) (kms key : String) (sg : KmsSigner),
       (newKMSSigner lookPath proc parsePub kms key).result = .ok (.kms sg) →
       sg.kms = kms ∧ sg.key = key ∧
       (∃ nm, lookPath "kms" = .ok nm ∧ sg.name = nm) ∧
       (∃ out, parsePub out = .ok sg.publicKey)) ∧
    (∀ (R : Type) (r : R) (s : KmsSigner) (d₁ d₂ : List Nat) (o₁ o₂ : SignerOpts)
       (proc : List String → List Nat → ProcResult), d₁ = d₂ → o₁ = o₂ →
       (s.sign r d₁ o₁ proc).spawned = (s.sign r d₂ o₂ proc).spawned) := by
  refine ⟨fun s => rfl, ?_, ?_, ?_⟩
  · intro R r s digest opts proc
    cases h : s.buildSignArgs opts with
    | error e => simp [KmsSigner.sign, h]
    | ok args =>
      cases hp : proc args digest with
      | ok out => simp [KmsSigner.sign, h, hp]
      | err e => simp [KmsSigner.sign, h, hp]
  · intro lookPath proc parsePub kms key sg hres
    cases hl : lookPath "kms" with
    | error e => simp [newKMSSigner, hl] at hres
    | ok nm =>
      cases hp : proc nm (keyFetchArgs kms key) with
      | err e => simp [newKMSSigner, hl, hp] at hres
      | ok out =>
        cases hq : parsePub out with
        | error e => simp [newKMSSigner, hl, hp, hq] at hres
        | ok pub =>
          simp only [newKMSSigner, hl, hp, hq, Except.ok.injEq, Signer.kms.injEq] at hres
          subst hres
          exact ⟨rfl, rfl, ⟨nm, rfl, rfl⟩, ⟨out, hq⟩⟩
  · intro R r s d₁ d₂ o₁ o₂ proc hd ho
    subst hd; subst ho; rfl

/-- Witness for C9: a concrete construction through stub collaborators stores
the provider, key id, resolved path and parsed key unchanged. -/
theorem kms_signer_immutable_witness :
    (⟨⟨.rsa, []⟩, "/plugin", "softkms:", "mykey"⟩ : KmsSigner).kms = "softkms:" ∧
    (⟨⟨.rsa, []⟩, "/plugin", "softkms:", "mykey"⟩ : KmsSigner).key = "mykey" ∧
    (∃ nm, (fun (_ : String) => Except.ok (ε := String) "/plugin") "kms" = .ok nm ∧
      (⟨⟨.rsa, []⟩, "/plugin", "softkms:", "mykey"⟩ : KmsSigner).name = nm) ∧
    (∃ out, (fun (_ : String) => Except.ok (ε := String) (⟨.rsa, []⟩ : PublicKey)) out =
      .ok (⟨⟨.rsa, []⟩, "/plugin", "softkms:", "mykey"⟩ : KmsSigner).publicKey) :=
  kms_signer_immutable.2.2.1 (fun _ => Except.ok "/plugin") (fun _ _ => .ok "PEM")
    (fun _ => Except.ok ⟨.rsa, []⟩) "softkms:" "mykey"
    ⟨⟨.rsa, []⟩, "/plugin", "softkms:", "mykey"⟩ rfl

/-- C10: the rand reader passed to `Sign` is never read: two calls differing
only in the rand reader (even in its type) produce identical outcomes —
the same argument list, the same bytes written to the subprocess, and the
same signature or error. -/
theorem sign_ignores_rand (R₁ R₂ : Type) (r₁ : R₁) (r₂ : R₂) (s : KmsSigner)
    (digest : List Nat) (opts : SignerOpts)
    (proc : List String → List Nat → ProcResult) :
    KmsSigner.sign s r₁ digest opts proc = KmsSigner.sign s r₂ digest opts proc := rfl

end StepCli
